import Mathlib

/-!
Shallow embedding of the core of the `cli-aio` repository:

* the tag template engine (`ztag` package: `GenerateNextTag`,
  `TagComponents.Next`, `TagTemplate1`, `TagTemplate2`, `mustAtoi`),
* the merge-conflict probe (`internal/pkg/git`: `CheckMergeConflicts`),
* the reverse-merge workflow (`cmd/git`: `reversedMergeBranch`).

Go's `(value, error)` pairs and `panic` are modelled by an explicit
result type; the external `git` process is modelled by a world record
holding the outcomes of the individual git commands, and each embedded
function additionally returns the trace of git commands it issued.
-/

namespace CliAio

/-- Outcome of a Go call: a normal value, a returned `error`, or a `panic`
that aborts the process. -/
inductive GoResult (α : Type) where
  | ok (a : α)
  | err (msg : String)
  | panic (msg : String)
  deriving Repr, DecidableEq

/-- Whether a `GoResult` is a returned (recoverable) error. -/
def GoResult.isErr {α : Type} : GoResult α → Bool
  | .err _ => true
  | _ => false

/-! ### Character classes of the Go regexes

Go's `regexp` matches ASCII classes here: `[a-zA-Z]`, `\d` = `[0-9]`,
`\w` = `[0-9A-Za-z_]`. -/

/-- `[a-zA-Z]` of the Go regex. -/
def isAlphaC (c : Char) : Bool :=
  (65 ≤ c.toNat && c.toNat ≤ 90) || (97 ≤ c.toNat && c.toNat ≤ 122)

/-- `\d` = `[0-9]` of the Go regex. -/
def isDigitC (c : Char) : Bool :=
  48 ≤ c.toNat && c.toNat ≤ 57

/-- `\w` = `[0-9A-Za-z_]` of the Go regex. -/
def isWordC (c : Char) : Bool :=
  isAlphaC c || isDigitC c || c = '_'

/-! ### Template 1: `^([a-zA-Z]+)-v(?P<major>\d+)\.(?P<minor>\d+)\.(?P<patch>\d+)$`

The regex is anchored and each repetition is bounded by a character the
class cannot match (`-` after letters, `.` after digits, end of string),
so matching is deterministic and is embedded as a direct parse. -/

/-- Matcher/extractor of `TagTemplate1.Regex` over the character list:
returns the captures `(prefix, major, minor, patch)` on a match. -/
def t1MatchAux (cs : List Char) : Option (String × String × String × String) :=
  let (pre, r0) := cs.span isAlphaC
  if pre = [] then none else
  match r0 with
  | '-' :: 'v' :: r1 =>
    let (ma, r2) := r1.span isDigitC
    if ma = [] then none else
    match r2 with
    | '.' :: r3 =>
      let (mi, r4) := r3.span isDigitC
      if mi = [] then none else
      match r4 with
      | '.' :: r5 =>
        let (pa, r6) := r5.span isDigitC
        if pa = [] then none else
        if r6 = [] then some (⟨pre⟩, ⟨ma⟩, ⟨mi⟩, ⟨pa⟩) else none
      | _ => none
    | _ => none
  | _ => none

/-- `TagTemplate1.Regex().FindStringSubmatch`, as captures. -/
def t1Match (s : String) : Option (String × String × String × String) :=
  t1MatchAux s.data

/-! ### Template 2: `^v(?P<major>\d+)\.(?P<minor>\d+)\.(?P<patch>\d+)(-(\w+))?$` -/

/-- Matcher/extractor of `TagTemplate2.Regex` over the character list:
returns `(major, minor, patch, optional suffix)` on a match. -/
def t2MatchAux (cs : List Char) : Option (String × String × String × Option String) :=
  match cs with
  | 'v' :: r0 =>
    let (ma, r1) := r0.span isDigitC
    if ma = [] then none else
    match r1 with
    | '.' :: r2 =>
      let (mi, r3) := r2.span isDigitC
      if mi = [] then none else
      match r3 with
      | '.' :: r4 =>
        let (pa, r5) := r4.span isDigitC
        if pa = [] then none else
        match r5 with
        | [] => some (⟨ma⟩, ⟨mi⟩, ⟨pa⟩, none)
        | '-' :: r6 =>
          if r6 ≠ [] && r6.all isWordC then some (⟨ma⟩, ⟨mi⟩, ⟨pa⟩, some ⟨r6⟩)
          else none
        | _ => none
      | _ => none
    | _ => none
  | _ => none

/-- `TagTemplate2.Regex().FindStringSubmatch`, as captures. -/
def t2Match (s : String) : Option (String × String × String × Option String) :=
  t2MatchAux s.data

/-! ### `strconv.Atoi` and `mustAtoi` -/

/-- Numeric value of a digit string. -/
def digitsToNat (l : List Char) : Nat :=
  l.foldl (fun a c => a * 10 + (c.toNat - 48)) 0

/-- Go's `strconv.Atoi` on a 64-bit platform: an optional leading sign,
then one or more digits, and the value must fit in `int64`; `none` models
a non-nil error (syntax or range). -/
def goAtoi (s : String) : Option Int :=
  let sign : Int := if s.data.head? = some '-' then -1 else 1
  let ds : List Char :=
    if s.data.head? = some '-' || s.data.head? = some '+' then s.data.tail
    else s.data
  if ds = [] || !ds.all isDigitC then none
  else if -(2 ^ 63) ≤ sign * (digitsToNat ds : Int) &&
      sign * (digitsToNat ds : Int) ≤ 2 ^ 63 - 1 then
    some (sign * (digitsToNat ds : Int))
  else none

/-- `ztag.mustAtoi`: empty string yields 0; a failing `strconv.Atoi`
panics. -/
def mustAtoi (s : String) : GoResult Int :=
  if s = "" then .ok 0
  else
    match goAtoi s with
    | some i => .ok i
    | none => .panic ("Regex matched non-integer value: " ++ s)

/-! ### Tag components and the bump rule -/

/-- `ztag.TagComponents` (Go `int` fields). -/
structure TagComponents where
  Major : Int
  Minor : Int
  Patch : Int
  deriving Repr, DecidableEq

/-- `ztag.Level` constants (`Level` is a Go string type). -/
def LevelBug : String := "b"

/-- `ztag.LevelMinor`. -/
def LevelMinor : String := "m"

/-- `ztag.LevelMajor`. -/
def LevelMajor : String := "M"

/-- `ztag.Env` constants (`Env` is a Go string type). -/
def EnvQC : String := "qc"

/-- `ztag.EnvStg`. -/
def EnvStg : String := "stg"

/-- `ztag.EnvProd`. -/
def EnvProd : String := "prod"

/-- Go's 64-bit two's-complement wrap: the value of an `int64` whose
ideal integer value is `x`. -/
def wrapInt64 (x : Int) : Int :=
  (x + 2 ^ 63) % 2 ^ 64 - 2 ^ 63

/-- `ztag.TagComponents.Next`: the bump rule (`switch` on the level; the
`LevelBug` case and the `default` case both bump the patch). The `++` on
a Go `int` (64-bit) wraps, so the increment is `wrapInt64 (x + 1)`. -/
def TagComponents.Next (c : TagComponents) (level : String) : TagComponents :=
  if level = LevelMajor then
    { Major := wrapInt64 (c.Major + 1), Minor := 0, Patch := 0 }
  else if level = LevelMinor then
    { Major := c.Major, Minor := wrapInt64 (c.Minor + 1), Patch := 0 }
  else if level = LevelBug then
    { Major := c.Major, Minor := c.Minor, Patch := wrapInt64 (c.Patch + 1) }
  else
    { Major := c.Major, Minor := c.Minor, Patch := wrapInt64 (c.Patch + 1) }

/-- `TagTemplate1.Extractor`: decompose a tag matched by template 1; the
three struct fields are evaluated in order, a `mustAtoi` panic propagates. -/
def extract1 (tag : String) : GoResult TagComponents :=
  match t1Match tag with
  | none => .err "tag does not match template 1"
  | some (_, ma, mi, pa) =>
    match mustAtoi ma with
    | .panic m => .panic m
    | .err m => .err m
    | .ok a =>
      match mustAtoi mi with
      | .panic m => .panic m
      | .err m => .err m
      | .ok b =>
        match mustAtoi pa with
        | .panic m => .panic m
        | .err m => .err m
        | .ok c => .ok { Major := a, Minor := b, Patch := c }

/-- `TagTemplate1.Generator`: `fmt.Sprintf("%s-v%d.%d.%d", env, ...)`. -/
def gen1 (c : TagComponents) (env : String) : String :=
  env ++ "-v" ++ toString c.Major ++ "." ++ toString c.Minor ++ "." ++ toString c.Patch

/-- `TagTemplate2.Extractor`. -/
def extract2 (tag : String) : GoResult TagComponents :=
  match t2Match tag with
  | none => .err "tag does not match template 2"
  | some (ma, mi, pa, _) =>
    match mustAtoi ma with
    | .panic m => .panic m
    | .err m => .err m
    | .ok a =>
      match mustAtoi mi with
      | .panic m => .panic m
      | .err m => .err m
      | .ok b =>
        match mustAtoi pa with
        | .panic m => .panic m
        | .err m => .err m
        | .ok c => .ok { Major := a, Minor := b, Patch := c }

/-- `TagTemplate2.Generator`: `fmt.Sprintf("v%d.%d.%d-%s", ..., env)` —
any suffix captured from the old tag is not consulted. -/
def gen2 (c : TagComponents) (env : String) : String :=
  "v" ++ toString c.Major ++ "." ++ toString c.Minor ++ "." ++ toString c.Patch ++ "-" ++ env

/-- `ztag.GenerateNextTag`: try the templates in order
`[TagTemplate1, TagTemplate2]`; on the first whose regex matches, extract,
bump, regenerate; otherwise a "no matching template" error. -/
def GenerateNextTag (oldTag level env : String) : GoResult String :=
  if (t1Match oldTag).isSome then
    match extract1 oldTag with
    | .err m => .err m
    | .panic m => .panic m
    | .ok c => .ok (gen1 (c.Next level) env)
  else if (t2Match oldTag).isSome then
    match extract2 oldTag with
    | .err m => .err m
    | .panic m => .panic m
    | .ok c => .ok (gen2 (c.Next level) env)
  else .err "tag does not match any supported template"

/-- The extractor actually run by `GenerateNextTag` for a tag: that of the
first template whose matcher accepts it. -/
def matchedExtract (tag : String) : GoResult TagComponents :=
  if (t1Match tag).isSome then extract1 tag
  else if (t2Match tag).isSome then extract2 tag
  else .err "tag does not match any supported template"

/-- The generator actually run by `GenerateNextTag` for a tag. -/
def matchedGenerate (tag : String) (c : TagComponents) (env : String) : String :=
  if (t1Match tag).isSome then gen1 c env else gen2 c env

/-- A tag is accepted by some template's matcher. -/
def matchesSomeTemplate (tag : String) : Bool :=
  (t1Match tag).isSome || (t2Match tag).isSome

/-! ### The merge-conflict probe (`internal/pkg/git.CheckMergeConflicts`)

The external `git` binary is the collaborator; a `GitWorld` records the
outcomes of the commands the probe can issue, and the probe returns its
Go result together with the ordered trace of issued commands. -/

/-- Go's `strings.Contains`. -/
def strContains (hay pat : String) : Bool :=
  let rec go : List Char → Bool
    | [] => pat.data.isPrefixOf []
    | c :: rest => pat.data.isPrefixOf (c :: rest) || go rest
  go hay.data

/-- The git commands `CheckMergeConflicts` can issue. -/
inductive GitCmd where
  | isAncestorCheck (src : String)
  | speculativeMerge (src : String)
  | mergeAbort
  deriving Repr, DecidableEq

/-- Outcomes of the git commands underneath one probe call:
`isAncestor` is the exit status of `git merge-base --is-ancestor src HEAD`,
`mergeSucceeds`/`mergeOutput` the exit status and combined output of
`git merge --no-commit --no-ff src`. -/
structure GitWorld where
  isAncestor : Bool
  mergeSucceeds : Bool
  mergeOutput : String
  deriving Repr, DecidableEq

/-- The conflict-marker test of `CheckMergeConflicts` on the captured
merge output. -/
def hasConflictMarkers (out : String) : Bool :=
  strContains out "CONFLICT" || strContains out "conflict" ||
    strContains out "Automatic merge failed"

/-- Body of `CheckMergeConflicts` before the deferred cleanup runs:
fast ancestry path, then the speculative `--no-commit --no-ff` merge,
then marker inspection; each non-fast-path exit issues an explicit abort. -/
def checkMergeConflictsBody (w : GitWorld) (sourceBranch : String) :
    GoResult Bool × List GitCmd :=
  if w.isAncestor then
    (.ok false, [.isAncestorCheck sourceBranch])
  else if w.mergeSucceeds then
    (.ok false, [.isAncestorCheck sourceBranch, .speculativeMerge sourceBranch, .mergeAbort])
  else if hasConflictMarkers w.mergeOutput then
    (.ok true, [.isAncestorCheck sourceBranch, .speculativeMerge sourceBranch, .mergeAbort])
  else
    (.err ("error checking merge conflicts: exit status 1\nOutput: " ++ w.mergeOutput),
      [.isAncestorCheck sourceBranch, .speculativeMerge sourceBranch, .mergeAbort])

/-- `git.CheckMergeConflicts`: the body, followed by the deferred
best-effort `git merge --abort` that runs on every exit path. -/
def CheckMergeConflicts (w : GitWorld) (sourceBranch : String) :
    GoResult Bool × List GitCmd :=
  let r := checkMergeConflictsBody w sourceBranch
  (r.1, r.2 ++ [.mergeAbort])

/-- Merge-state semantics of the issued commands: whether a merge is
pending in the working tree after a command, given whether one was pending
before. The ancestry check is read-only; a speculative merge attempt may
leave merge state behind; an abort clears it. -/
def applyGitCmd (pending : Bool) : GitCmd → Bool
  | .isAncestorCheck _ => pending
  | .speculativeMerge _ => true
  | .mergeAbort => false

/-- Merge-state after running a trace of commands. -/
def mergePendingAfter (tr : List GitCmd) (pending : Bool) : Bool :=
  tr.foldl applyGitCmd pending

/-- Whether a command is `git merge --abort`. -/
def isAbort : GitCmd → Bool
  | .mergeAbort => true
  | _ => false

/-- Number of `git merge --abort` invocations in a trace. -/
def abortCount (tr : List GitCmd) : Nat :=
  tr.countP isAbort

/-! ### The reverse-merge workflow (`cmd/git.reversedMergeBranch`)

The command's collaborators (git wrappers and the interactive prompt) are
modelled by an `RMWorld` record; the workflow returns its Go result and
the ordered trace of operations it invoked. `git.BranchExists` in the
source always returns a nil error, so it is modelled as a boolean. -/

/-- Operations the reverse-merge workflow invokes. -/
inductive RMOp where
  | getCurrentBranch
  | getLocalBranches
  | promptSelect
  | branchExistsCheck (b : String)
  | fetch (b : String)
  | checkout (b : String)
  | pull
  | probeCmd (g : GitCmd)
  | realMerge (b : String)
  deriving Repr, DecidableEq

/-- Outcomes of the collaborators underneath one `rmerge` run. The wrapped
git helpers and the prompt return `(value, error)` pairs, never panic, so
their outcomes are `Except`. -/
structure RMWorld where
  currentBranch : Except String String
  args : List String
  localBranches : Except String (List String)
  selectTarget : Except String String
  selectFallback : Except String String
  branchExists : String → Bool
  fetchOk : String → Bool
  checkoutOk : String → Bool
  pullOk : Bool
  probe : GitWorld
  mergeOk : String → Bool

/-- Steps 6–9 of `reversedMergeBranch` once the target branch is resolved
and validated: fetch (non-fatal), checkout, pull, conflict probe, real
merge. -/
def rmergeAfterTarget (w : RMWorld) (currentBranch targetBranch : String)
    (tr : List RMOp) : GoResult Unit × List RMOp :=
  let tr := tr ++ [.fetch targetBranch]
  -- a fetch failure only prints a warning; the workflow proceeds
  let tr := tr ++ [.checkout targetBranch]
  if !w.checkoutOk targetBranch then
    (.err ("failed to checkout branch " ++ targetBranch), tr)
  else
    let tr := tr ++ [.pull]
    if !w.pullOk then
      (.err "failed to pull branch", tr)
    else
      let pr := CheckMergeConflicts w.probe currentBranch
      let tr := tr ++ pr.2.map .probeCmd
      match pr.1 with
      | .panic m => (.panic m, tr)
      | .err m => (.err ("failed to check merge conflicts: " ++ m), tr)
      | .ok hasConflicts =>
        if hasConflicts then
          (.err ("merge conflicts detected! Cannot merge " ++ currentBranch ++
            " into " ++ targetBranch ++ ", please resolve conflicts manually"), tr)
        else
          let tr := tr ++ [.realMerge currentBranch]
          if !w.mergeOk currentBranch then
            (.err ("failed to merge branch " ++ currentBranch), tr)
          else (.ok (), tr)

/-- Target-validation half of `reversedMergeBranch`: the target exists, or
the user re-selects one from the local branches other than the current
branch. -/
def rmergeValidated (w : RMWorld) (currentBranch targetBranch : String)
    (tr : List RMOp) : GoResult Unit × List RMOp :=
  let tr := tr ++ [.branchExistsCheck targetBranch]
  if w.branchExists targetBranch then
    if currentBranch = targetBranch then
      (.err ("already on target branch " ++ targetBranch), tr)
    else rmergeAfterTarget w currentBranch targetBranch tr
  else
    let tr := tr ++ [.getLocalBranches]
    match w.localBranches with
    | .error m =>
      (.err ("branch " ++ targetBranch ++ " does not exist and failed to get local branches: " ++ m), tr)
    | .ok locals =>
      let available := locals.filter (fun b => b ≠ currentBranch)
      if available = [] then
        (.err ("branch " ++ targetBranch ++ " does not exist and no other local branches available"), tr)
      else
        let tr := tr ++ [.promptSelect]
        match w.selectFallback with
        | .error m => (.err ("failed to select branch: " ++ m), tr)
        | .ok selected =>
          if currentBranch = selected then
            (.err ("already on target branch " ++ selected), tr)
          else rmergeAfterTarget w currentBranch selected tr

/-- `cmd/git.reversedMergeBranch`: resolve the current branch, resolve the
target branch from the arguments or an interactive selection, validate it,
guard against merging a branch into itself, then fetch → checkout → pull →
probe → merge. -/
def reversedMergeBranch (w : RMWorld) : GoResult Unit × List RMOp :=
  let tr : List RMOp := [.getCurrentBranch]
  match w.currentBranch with
  | .error m => (.err m, tr)
  | .ok currentBranch =>
    match w.args with
    | targetBranch :: _ => rmergeValidated w currentBranch targetBranch tr
    | [] =>
      let tr := tr ++ [.getLocalBranches]
      match w.localBranches with
      | .error m => (.err m, tr)
      | .ok locals =>
        let available := locals.filter (fun b => b ≠ currentBranch)
        if available = [] then
          (.err "no other local branches available to merge into", tr)
        else
          let tr := tr ++ [.promptSelect]
          match w.selectTarget with
          | .error m => (.err ("failed to select branch: " ++ m), tr)
          | .ok selected => rmergeValidated w currentBranch selected tr

/-- A concrete run of the reverse-merge workflow in which every step
succeeds until the probe, whose speculative merge fails with conflict
markers in its output. -/
def rmWorldConflict : RMWorld where
  currentBranch := .ok "feature"
  args := ["develop"]
  localBranches := .ok ["feature", "develop"]
  selectTarget := .ok "develop"
  selectFallback := .ok "develop"
  branchExists := fun _ => true
  fetchOk := fun _ => true
  checkoutOk := fun _ => true
  pullOk := true
  probe := { isAncestor := false, mergeSucceeds := false,
             mergeOutput := "CONFLICT (content): Merge conflict in file.txt" }
  mergeOk := fun _ => true

/-! ## Theorems about the embedded program -/

/-- C1: after every call to `CheckMergeConflicts`, on every exit path, a
merge-abort command has been issued before the call returns (the trace
ends with `mergeAbort`), so no merge is left pending: starting from a
working tree with no pending merge, the merge-state after the issued
commands is again "no merge pending". -/
theorem checkMergeConflicts_always_aborts (w : GitWorld) (src : String) :
    (∃ t0, (CheckMergeConflicts w src).2 = t0 ++ [GitCmd.mergeAbort]) ∧
      mergePendingAfter (CheckMergeConflicts w src).2 false = false := by
  refine ⟨⟨(checkMergeConflictsBody w src).2, rfl⟩, ?_⟩
  simp [CheckMergeConflicts, mergePendingAfter, List.foldl_append, applyGitCmd]

/-- C3: if the speculative merge fails and its combined output contains
none of the conflict markers, `CheckMergeConflicts` returns an execution
error — neither "no conflict" nor "conflict". -/
theorem checkMergeConflicts_other_failure_errors (w : GitWorld) (src : String)
    (h1 : w.isAncestor = false) (h2 : w.mergeSucceeds = false)
    (h3 : hasConflictMarkers w.mergeOutput = false) :
    (CheckMergeConflicts w src).1 =
      .err ("error checking merge conflicts: exit status 1\nOutput: " ++ w.mergeOutput) := by
  simp [CheckMergeConflicts, checkMergeConflictsBody, h1, h2, h3]

/-- Witness for C3 at a concrete world whose merge output, "error: Your
local changes would be overwritten by merge", contains no marker. -/
theorem checkMergeConflicts_other_failure_errors_witness :
    ({ isAncestor := false, mergeSucceeds := false,
       mergeOutput := "error: Your local changes would be overwritten by merge" } : GitWorld).isAncestor = false ∧
    (CheckMergeConflicts
      { isAncestor := false, mergeSucceeds := false,
        mergeOutput := "error: Your local changes would be overwritten by merge" } "feature").1 =
      .err ("error checking merge conflicts: exit status 1\nOutput: " ++
        "error: Your local changes would be overwritten by merge") :=
  ⟨rfl, checkMergeConflicts_other_failure_errors _ "feature" rfl rfl (by decide)⟩

/-- C4, counterexample: at a concrete world whose speculative merge fails
with output containing "CONFLICT", the probe does return true, but the
merge-abort command is issued twice (once in the conflict branch, once by
the deferred cleanup), not exactly once as claimed. -/
theorem checkMergeConflicts_conflict_abort_count_counterexample :
    strContains "CONFLICT (content): Merge conflict in file.txt" "CONFLICT" = true ∧
    (CheckMergeConflicts
      { isAncestor := false, mergeSucceeds := false,
        mergeOutput := "CONFLICT (content): Merge conflict in file.txt" } "feature").1 = .ok true ∧
    abortCount (CheckMergeConflicts
      { isAncestor := false, mergeSucceeds := false,
        mergeOutput := "CONFLICT (content): Merge conflict in file.txt" } "feature").2 = 2 ∧
    ¬ abortCount (CheckMergeConflicts
      { isAncestor := false, mergeSucceeds := false,
        mergeOutput := "CONFLICT (content): Merge conflict in file.txt" } "feature").2 = 1 := by
  decide

/-- C4, amended: if the speculative merge fails with output containing
"CONFLICT", `CheckMergeConflicts` returns true and the merge-abort command
is issued exactly twice during the call. -/
theorem checkMergeConflicts_conflict_aborts_twice (w : GitWorld) (src : String)
    (h1 : w.isAncestor = false) (h2 : w.mergeSucceeds = false)
    (h3 : strContains w.mergeOutput "CONFLICT" = true) :
    (CheckMergeConflicts w src).1 = .ok true ∧
      abortCount (CheckMergeConflicts w src).2 = 2 := by
  have hm : hasConflictMarkers w.mergeOutput = true := by
    simp [hasConflictMarkers, h3]
  simp [CheckMergeConflicts, checkMergeConflictsBody, h1, h2, hm,
    abortCount, List.countP_cons, isAbort]

/-- Witness for the amended C4 at a concrete conflicting world. -/
theorem checkMergeConflicts_conflict_aborts_twice_witness :
    (CheckMergeConflicts
      { isAncestor := false, mergeSucceeds := false,
        mergeOutput := "Automatic merge failed; CONFLICT (content)" } "dev").1 = .ok true ∧
    abortCount (CheckMergeConflicts
      { isAncestor := false, mergeSucceeds := false,
        mergeOutput := "Automatic merge failed; CONFLICT (content)" } "dev").2 = 2 :=
  checkMergeConflicts_conflict_aborts_twice _ "dev" rfl rfl (by decide)

/-- C5: if the source branch is already an ancestor of HEAD,
`CheckMergeConflicts` returns false without issuing any speculative merge
command. -/
theorem checkMergeConflicts_ancestor_fast_path (w : GitWorld) (src : String)
    (h : w.isAncestor = true) :
    (CheckMergeConflicts w src).1 = .ok false ∧
      ∀ b, GitCmd.speculativeMerge b ∉ (CheckMergeConflicts w src).2 := by
  constructor
  · simp [CheckMergeConflicts, checkMergeConflictsBody, h]
  · intro b
    simp [CheckMergeConflicts, checkMergeConflictsBody, h]

/-- Witness for C5 at a concrete world where ancestry holds. -/
theorem checkMergeConflicts_ancestor_fast_path_witness :
    (CheckMergeConflicts
      { isAncestor := true, mergeSucceeds := false, mergeOutput := "" } "feature").1 = .ok false ∧
    ∀ b, GitCmd.speculativeMerge b ∉
      (CheckMergeConflicts
        { isAncestor := true, mergeSucceeds := false, mergeOutput := "" } "feature").2 :=
  checkMergeConflicts_ancestor_fast_path _ "feature" rfl

/-- C7: an input accepted by no template's matcher makes `GenerateNextTag`
fail with the "no matching template" error — no default tag is produced. -/
theorem generateNextTag_no_matching_template (tag level env : String)
    (h1 : t1Match tag = none) (h2 : t2Match tag = none) :
    GenerateNextTag tag level env = .err "tag does not match any supported template" := by
  simp [GenerateNextTag, h1, h2]

/-- Witness for C7 at the spec's example input "not-a-tag". -/
theorem generateNextTag_no_matching_template_witness :
    t1Match "not-a-tag" = none ∧ t2Match "not-a-tag" = none ∧
    GenerateNextTag "not-a-tag" LevelBug EnvQC =
      .err "tag does not match any supported template" :=
  ⟨by decide, by decide,
    generateNextTag_no_matching_template _ LevelBug EnvQC (by decide) (by decide)⟩

/-! ### Helper lemmas about the character classes and the parsers -/

/-- A digit character is not a letter. -/
theorem isAlphaC_eq_false_of_isDigitC (c : Char) (h : isDigitC c = true) :
    isAlphaC c = false := by
  simp only [isDigitC, Bool.and_eq_true, decide_eq_true_eq] at h
  simp only [isAlphaC, Bool.or_eq_false_iff, Bool.and_eq_false_iff,
    decide_eq_false_iff_not, not_le]
  omega

/-- A digit character differs from any non-digit character. -/
theorem isDigitC_ne (c d : Char) (h : isDigitC c = true) (hd : isDigitC d = false) :
    c ≠ d := by
  rintro rfl
  rw [h] at hd
  cases hd

/-- A string matched by template 2 starts with `v` followed by a digit. -/
theorem t2_shape (cs : List Char) (r : String × String × String × Option String)
    (h : t2MatchAux cs = some r) :
    ∃ c0 t0, cs = 'v' :: c0 :: t0 ∧ isDigitC c0 = true := by
  unfold t2MatchAux at h
  split at h
  case _ r0 =>
    cases r0 with
    | nil => simp at h
    | cons c0 t0 =>
      by_cases hd : isDigitC c0
      · exact ⟨c0, t0, rfl, hd⟩
      · simp [List.span_eq_take_drop, List.takeWhile_cons_of_neg hd] at h
  case _ => simp at h

/-- The two template regexes are disjoint: a string matched by template 2
is rejected by template 1 (its letter prefix `v` is followed by a digit,
not by `-v`). -/
theorem t1MatchAux_none_of_t2 (cs : List Char)
    (r : String × String × String × Option String)
    (h : t2MatchAux cs = some r) : t1MatchAux cs = none := by
  obtain ⟨c0, t0, rfl, hd⟩ := t2_shape cs r h
  have hna : ¬ isAlphaC c0 = true := by
    simp [isAlphaC_eq_false_of_isDigitC c0 hd]
  have hv : isAlphaC 'v' = true := by decide
  unfold t1MatchAux
  simp only [List.span_eq_take_drop, List.takeWhile_cons_of_pos hv,
    List.takeWhile_cons_of_neg hna, List.dropWhile_cons_of_pos hv,
    List.dropWhile_cons_of_neg hna]
  rw [if_neg (by simp)]
  split
  case _ r1 heq =>
    rw [List.cons.injEq] at heq
    exact absurd heq.1 (isDigitC_ne c0 '-' hd (by decide))
  case _ => rfl

/-- String-level corollary of the template disjointness. -/
theorem t1Match_none_of_t2Match_some (tag : String)
    (r : String × String × String × Option String)
    (h : t2Match tag = some r) : t1Match tag = none :=
  t1MatchAux_none_of_t2 tag.data r h

/-- `mustAtoi` on a nonempty digit string whose value fits in `int64`
returns that value. -/
theorem mustAtoi_digits (l : List Char) (h1 : l ≠ []) (h2 : l.all isDigitC = true)
    (h3 : (digitsToNat l : Int) ≤ 2 ^ 63 - 1) :
    mustAtoi ⟨l⟩ = .ok ((digitsToNat l : Int)) := by
  obtain ⟨c, t, rfl⟩ : ∃ c t, l = c :: t := by
    cases l with
    | nil => exact absurd rfl h1
    | cons c t => exact ⟨c, t, rfl⟩
  have hc : isDigitC c = true := by
    simp only [List.all_cons, Bool.and_eq_true] at h2
    exact h2.1
  have hne : (⟨c :: t⟩ : String) ≠ "" := by
    intro h
    have := congrArg String.data h
    simp at this
  have hplus : c ≠ '+' := isDigitC_ne c '+' hc (by decide)
  have hminus : c ≠ '-' := isDigitC_ne c '-' hc (by decide)
  rw [mustAtoi, if_neg hne]
  have hgo : goAtoi ⟨c :: t⟩ = some ((digitsToNat (c :: t) : Int)) := by
    simp only [goAtoi, List.head?_cons]
    rw [if_neg (show ¬ (some c = some '-') by simp [hminus])]
    rw [if_neg (show ¬ ((decide (some c = some '-') || decide (some c = some '+')) = true) by
      simp [hminus, hplus])]
    rw [if_neg (show ¬ ((decide ((c :: t) = []) || !(c :: t).all isDigitC) = true) by
      simp [h2])]
    rw [if_pos (show ((decide (-(2 ^ 63) ≤ 1 * ((digitsToNat (c :: t) : Int))) &&
        decide (1 * ((digitsToNat (c :: t) : Int)) ≤ 2 ^ 63 - 1)) = true) by
      simp only [one_mul, Bool.and_eq_true, decide_eq_true_eq]
      exact ⟨by omega, h3⟩)]
    rw [one_mul]
  rw [hgo]

/-- Splitting at the first character the class rejects. -/
theorem span_append_sep (p : Char → Bool) (l : List Char) (c : Char) (r : List Char)
    (hl : l.all p = true) (hc : p c = false) :
    (l ++ c :: r).span p = (l, c :: r) := by
  have hl' : ∀ a ∈ l, p a := by simpa [List.all_eq_true] using hl
  have hc' : ¬ p c = true := by simp [hc]
  simp [List.span_eq_take_drop, List.takeWhile_append_of_pos hl',
    List.takeWhile_cons_of_neg hc', List.dropWhile_append_of_pos hl',
    List.dropWhile_cons_of_neg hc']

/-- A list all of whose characters the class accepts spans whole. -/
theorem span_all_true (p : Char → Bool) (l : List Char) (hl : l.all p = true) :
    l.span p = (l, []) := by
  have hl' : ∀ a ∈ l, p a := by simpa [List.all_eq_true] using hl
  simp [List.span_eq_take_drop, List.takeWhile_eq_self_iff.2 hl',
    List.dropWhile_eq_nil_iff.2 hl']

/-- Template 1 matches every well-formed `<letters>-v<digits>.<digits>.<digits>`
string and captures its four components. -/
theorem t1MatchAux_construct (pre ma mi pa : List Char)
    (hpre : pre ≠ []) (hpreA : pre.all isAlphaC = true)
    (hma : ma ≠ []) (hmaD : ma.all isDigitC = true)
    (hmi : mi ≠ []) (hmiD : mi.all isDigitC = true)
    (hpa : pa ≠ []) (hpaD : pa.all isDigitC = true) :
    t1MatchAux (pre ++ '-' :: 'v' :: (ma ++ '.' :: (mi ++ '.' :: pa))) =
      some (⟨pre⟩, ⟨ma⟩, ⟨mi⟩, ⟨pa⟩) := by
  unfold t1MatchAux
  rw [span_append_sep isAlphaC pre '-' _ hpreA (by decide)]
  simp only [if_neg hpre]
  rw [span_append_sep isDigitC ma '.' _ hmaD (by decide)]
  simp only [if_neg hma]
  rw [span_append_sep isDigitC mi '.' _ hmiD (by decide)]
  simp only [if_neg hmi]
  rw [span_all_true isDigitC pa hpaD]
  simp only [if_neg hpa]
  simp

/-- C6, behaviour at the failing input: the tag
`qc-v99999999999999999999999.0.0` is accepted by template 1's matcher, but
its major component exceeds `int64`, so `strconv.Atoi` fails and
`mustAtoi` panics — `GenerateNextTag` crashes the process instead of
returning a typed error. -/
theorem generateNextTag_panics_on_overflow_component :
    (t1Match "qc-v99999999999999999999999.0.0").isSome = true ∧
    GenerateNextTag "qc-v99999999999999999999999.0.0" LevelBug EnvQC =
      .panic "Regex matched non-integer value: 99999999999999999999999" := by
  decide

/-- C2, counterexample: at the reachable boundary tag
`qc-v9223372036854775807.0.0` — the major component is exactly the
largest `int64`, which `strconv.Atoi` accepts — a major bump wraps Go's
`int` to `-2^63`, so the major component is not incremented and the
program emits `qc-v-9223372036854775808.0.0`. -/
theorem generateNextTag_bump_rule_counterexample :
    (t1Match "qc-v9223372036854775807.0.0").isSome = true ∧
    extract1 "qc-v9223372036854775807.0.0" =
      .ok { Major := 9223372036854775807, Minor := 0, Patch := 0 } ∧
    (TagComponents.Next { Major := 9223372036854775807, Minor := 0, Patch := 0 }
      LevelMajor).Major ≠ 9223372036854775807 + 1 ∧
    GenerateNextTag "qc-v9223372036854775807.0.0" LevelMajor EnvQC =
      .ok "qc-v-9223372036854775808.0.0" := by
  decide

/-- C2, amended: for a tag accepted by some template's matcher whose
components extract successfully, `GenerateNextTag` regenerates from the
bump of the extracted components, and the bump rule is: `Major` bumps
major (by Go's wrapping 64-bit increment) and zeroes minor and patch;
`Minor` bumps minor and zeroes patch; `Patch` ("b") and any unrecognized
level bump patch only; the wrapping increment is an ordinary `+ 1`
whenever the component is below the largest `int64`. -/
theorem generateNextTag_bump_rule_wrapping (tag level env : String) (c : TagComponents)
    (hm : matchesSomeTemplate tag = true)
    (hx : matchedExtract tag = .ok c) :
    GenerateNextTag tag level env = .ok (matchedGenerate tag (c.Next level) env) ∧
    (level = LevelMajor →
      c.Next level = { Major := wrapInt64 (c.Major + 1), Minor := 0, Patch := 0 }) ∧
    (level = LevelMinor →
      c.Next level = { Major := c.Major, Minor := wrapInt64 (c.Minor + 1), Patch := 0 }) ∧
    (level ≠ LevelMajor → level ≠ LevelMinor →
      c.Next level = { Major := c.Major, Minor := c.Minor, Patch := wrapInt64 (c.Patch + 1) }) ∧
    (∀ x : Int, -(2 ^ 63) ≤ x → x < 2 ^ 63 - 1 → wrapInt64 (x + 1) = x + 1) := by
  refine ⟨?_, ?_, ?_, ?_, ?_⟩
  · by_cases h1 : (t1Match tag).isSome
    · simp only [matchedExtract, if_pos h1] at hx
      simp [GenerateNextTag, matchedGenerate, h1, hx]
    · by_cases h2 : (t2Match tag).isSome
      · simp only [matchedExtract, if_neg h1, if_pos h2] at hx
        simp [GenerateNextTag, matchedGenerate, h1, h2, hx]
      · simp [matchesSomeTemplate, h1, h2] at hm
  · intro h
    simp [TagComponents.Next, h, LevelMajor, LevelMinor, LevelBug]
  · intro h
    simp [TagComponents.Next, h, LevelMajor, LevelMinor, LevelBug]
  · intro h1 h2
    simp only [TagComponents.Next, if_neg h1, if_neg h2]
    by_cases h3 : level = LevelBug <;> simp [h3]
  · intro x hx1 hx2
    simp only [wrapInt64]
    omega

/-- Witness for the amended C2: bumping `qc-v1.2.3` at minor level yields
`qc-v1.3.0`. -/
theorem generateNextTag_bump_rule_wrapping_witness :
    matchesSomeTemplate "qc-v1.2.3" = true ∧
    matchedExtract "qc-v1.2.3" = .ok { Major := 1, Minor := 2, Patch := 3 } ∧
    (GenerateNextTag "qc-v1.2.3" LevelMinor EnvQC =
      .ok (matchedGenerate "qc-v1.2.3"
        (TagComponents.Next { Major := 1, Minor := 2, Patch := 3 } LevelMinor) EnvQC) ∧
     (LevelMinor = LevelMajor →
       TagComponents.Next { Major := 1, Minor := 2, Patch := 3 } LevelMinor =
         { Major := wrapInt64 (1 + 1), Minor := 0, Patch := 0 }) ∧
     (LevelMinor = LevelMinor →
       TagComponents.Next { Major := 1, Minor := 2, Patch := 3 } LevelMinor =
         { Major := 1, Minor := wrapInt64 (2 + 1), Patch := 0 }) ∧
     (LevelMinor ≠ LevelMajor → LevelMinor ≠ LevelMinor →
       TagComponents.Next { Major := 1, Minor := 2, Patch := 3 } LevelMinor =
         { Major := 1, Minor := 2, Patch := wrapInt64 (3 + 1) }) ∧
     (∀ x : Int, -(2 ^ 63) ≤ x → x < 2 ^ 63 - 1 → wrapInt64 (x + 1) = x + 1)) :=
  ⟨by decide, by decide,
    generateNextTag_bump_rule_wrapping "qc-v1.2.3" LevelMinor EnvQC _ (by decide) (by decide)⟩

/-- C9: for every tag matched by template 2 (Convention B,
`v<major>.<minor>.<patch>` with or without a suffix) whose components
extract successfully, the generated tag is rebuilt from the bumped
components with the environment label as the only suffix — the captured
suffix `suf` does not occur in the result. -/
theorem generateNextTag_template2_discards_suffix
    (tag level env ma mi pa : String) (suf : Option String) (c : TagComponents)
    (h : t2Match tag = some (ma, mi, pa, suf))
    (hx : extract2 tag = .ok c) :
    GenerateNextTag tag level env =
      .ok ("v" ++ toString (c.Next level).Major ++ "." ++ toString (c.Next level).Minor ++
        "." ++ toString (c.Next level).Patch ++ "-" ++ env) := by
  have h1 : t1Match tag = none := t1Match_none_of_t2Match_some tag _ h
  simp [GenerateNextTag, h1, h, hx, gen2]

/-- Witness for C9 at the spec's example:
`GenerateNextTag "v1.2.3-beta" Major Production = "v2.0.0-prod"`. -/
theorem generateNextTag_template2_discards_suffix_witness :
    t2Match "v1.2.3-beta" = some ("1", "2", "3", some "beta") ∧
    extract2 "v1.2.3-beta" = .ok ⟨1, 2, 3⟩ ∧
    GenerateNextTag "v1.2.3-beta" LevelMajor EnvProd =
      .ok ("v" ++ toString ((TagComponents.Next ⟨1, 2, 3⟩ LevelMajor).Major) ++ "." ++
        toString ((TagComponents.Next ⟨1, 2, 3⟩ LevelMajor).Minor) ++ "." ++
        toString ((TagComponents.Next ⟨1, 2, 3⟩ LevelMajor).Patch) ++ "-" ++ EnvProd) ∧
    GenerateNextTag "v1.2.3-beta" LevelMajor EnvProd = .ok "v2.0.0-prod" :=
  ⟨by decide, by decide,
    generateNextTag_template2_discards_suffix "v1.2.3-beta" LevelMajor EnvProd
      "1" "2" "3" (some "beta") ⟨1, 2, 3⟩ (by decide) (by decide),
    by decide⟩

/-- C10: template 1 accepts any tag whose prefix before `-v` is one or
more ASCII letters — not only the three environment labels — and the
generated tag replaces that prefix with the target environment's label
(the bumped version components follow `env ++ "-v"`; `pre` is gone). -/
theorem generateNextTag_template1_any_prefix
    (pre ma mi pa : List Char) (level env : String)
    (hpre : pre ≠ []) (hpreA : pre.all isAlphaC = true)
    (hma : ma ≠ []) (hmaD : ma.all isDigitC = true)
    (hmi : mi ≠ []) (hmiD : mi.all isDigitC = true)
    (hpa : pa ≠ []) (hpaD : pa.all isDigitC = true)
    (hra : (digitsToNat ma : Int) ≤ 2 ^ 63 - 1)
    (hrb : (digitsToNat mi : Int) ≤ 2 ^ 63 - 1)
    (hrc : (digitsToNat pa : Int) ≤ 2 ^ 63 - 1) :
    t1Match ⟨pre ++ '-' :: 'v' :: (ma ++ '.' :: (mi ++ '.' :: pa))⟩ =
      some (⟨pre⟩, ⟨ma⟩, ⟨mi⟩, ⟨pa⟩) ∧
    GenerateNextTag ⟨pre ++ '-' :: 'v' :: (ma ++ '.' :: (mi ++ '.' :: pa))⟩ level env =
      .ok (env ++ "-v" ++
        toString ((TagComponents.Next ⟨(digitsToNat ma : Int), (digitsToNat mi : Int), (digitsToNat pa : Int)⟩ level).Major) ++ "." ++
        toString ((TagComponents.Next ⟨(digitsToNat ma : Int), (digitsToNat mi : Int), (digitsToNat pa : Int)⟩ level).Minor) ++ "." ++
        toString ((TagComponents.Next ⟨(digitsToNat ma : Int), (digitsToNat mi : Int), (digitsToNat pa : Int)⟩ level).Patch)) := by
  have hm : t1Match ⟨pre ++ '-' :: 'v' :: (ma ++ '.' :: (mi ++ '.' :: pa))⟩ =
      some (⟨pre⟩, ⟨ma⟩, ⟨mi⟩, ⟨pa⟩) :=
    t1MatchAux_construct pre ma mi pa hpre hpreA hma hmaD hmi hmiD hpa hpaD
  refine ⟨hm, ?_⟩
  have hext : extract1 ⟨pre ++ '-' :: 'v' :: (ma ++ '.' :: (mi ++ '.' :: pa))⟩ =
      .ok ⟨(digitsToNat ma : Int), (digitsToNat mi : Int), (digitsToNat pa : Int)⟩ := by
    simp only [extract1, hm, mustAtoi_digits ma hma hmaD hra,
      mustAtoi_digits mi hmi hmiD hrb, mustAtoi_digits pa hpa hpaD hrc]
  simp only [GenerateNextTag, hm, Option.isSome_some, if_true, hext, gen1]

/-- Witness for C10: `GenerateNextTag "foo-v1.2.3" Patch Production`
replaces the non-environment prefix "foo" with "prod". -/
theorem generateNextTag_template1_any_prefix_witness :
    t1Match "foo-v1.2.3" = some ("foo", "1", "2", "3") ∧
    GenerateNextTag "foo-v1.2.3" LevelBug EnvProd = .ok "prod-v1.2.4" := by
  obtain ⟨h1, h2⟩ := generateNextTag_template1_any_prefix
    ['f', 'o', 'o'] ['1'] ['2'] ['3'] LevelBug EnvProd
    (by decide) (by decide) (by decide) (by decide) (by decide) (by decide)
    (by decide) (by decide) (by decide) (by decide) (by decide)
  have e : (⟨['f', 'o', 'o'] ++ '-' :: 'v' :: (['1'] ++ '.' :: (['2'] ++ '.' :: ['3']))⟩ : String) =
      "foo-v1.2.3" := by decide
  rw [e] at h1 h2
  refine ⟨h1, ?_⟩
  rw [h2]
  decide

/-! ### Helper lemmas for the reverse-merge workflow -/

/-- Full probe outcome and trace under a conflicting world. -/
theorem checkMergeConflicts_conflict_eq (g : GitWorld) (src : String)
    (h1 : g.isAncestor = false) (h2 : g.mergeSucceeds = false)
    (h3 : hasConflictMarkers g.mergeOutput = true) :
    CheckMergeConflicts g src =
      (.ok true, [.isAncestorCheck src, .speculativeMerge src, .mergeAbort, .mergeAbort]) := by
  simp [CheckMergeConflicts, checkMergeConflictsBody, h1, h2, h3]

/-- Under a conflicting probe world, the tail of the workflow fails and
adds no real-merge operation to the trace. -/
theorem rmergeAfterTarget_conflict (w : RMWorld) (cur tgt : String) (tr : List RMOp)
    (h1 : w.probe.isAncestor = false) (h2 : w.probe.mergeSucceeds = false)
    (h3 : hasConflictMarkers w.probe.mergeOutput = true) :
    (rmergeAfterTarget w cur tgt tr).1.isErr = true ∧
    ∀ b, RMOp.realMerge b ∈ (rmergeAfterTarget w cur tgt tr).2 → RMOp.realMerge b ∈ tr := by
  by_cases hco : w.checkoutOk tgt
  · by_cases hpl : w.pullOk
    · simp [rmergeAfterTarget, hco, hpl,
        checkMergeConflicts_conflict_eq w.probe cur h1 h2 h3, GoResult.isErr]
    · simp [rmergeAfterTarget, hco, hpl, GoResult.isErr]
  · simp [rmergeAfterTarget, hco, GoResult.isErr]

/-- Under a conflicting probe world, the validated workflow fails and adds
no real-merge operation to the trace. -/
theorem rmergeValidated_conflict (w : RMWorld) (cur tgt : String) (tr : List RMOp)
    (h1 : w.probe.isAncestor = false) (h2 : w.probe.mergeSucceeds = false)
    (h3 : hasConflictMarkers w.probe.mergeOutput = true) :
    (rmergeValidated w cur tgt tr).1.isErr = true ∧
    ∀ b, RMOp.realMerge b ∈ (rmergeValidated w cur tgt tr).2 → RMOp.realMerge b ∈ tr := by
  by_cases hex : w.branchExists tgt = true
  · by_cases hsame : cur = tgt
    · simp [rmergeValidated, hex, hsame, GoResult.isErr]
    · have ha := rmergeAfterTarget_conflict w cur tgt (tr ++ [.branchExistsCheck tgt]) h1 h2 h3
      constructor
      · simpa [rmergeValidated, hex, hsame] using ha.1
      · intro b hb
        have := ha.2 b (by simpa [rmergeValidated, hex, hsame] using hb)
        simp at this
        exact this
  · match hlb : w.localBranches with
    | .error m => simp [rmergeValidated, hex, hlb, GoResult.isErr]
    | .ok locals =>
      by_cases hav : ∀ a ∈ locals, a = cur
      · simp [rmergeValidated, hex, hlb, iff_true_intro hav, GoResult.isErr]
      · match hsel : w.selectFallback with
        | .error m => simp [rmergeValidated, hex, hlb, hav, hsel, GoResult.isErr]
        | .ok selected =>
          by_cases hsame : cur = selected
          · subst hsame
            simp [rmergeValidated, hex, hlb, hav, hsel, GoResult.isErr]
          · have ha := rmergeAfterTarget_conflict w cur selected
              (tr ++ [.branchExistsCheck tgt] ++ [.getLocalBranches] ++ [.promptSelect]) h1 h2 h3
            constructor
            · simpa [rmergeValidated, hex, hlb, hav, hsel, hsame] using ha.1
            · intro b hb
              have := ha.2 b (by simpa [rmergeValidated, hex, hlb, hav, hsel, hsame] using hb)
              simp at this
              exact this

/-- C8: in the reverse-merge workflow, whenever the probe would report a
conflict, the workflow terminates with an error and the real committing
merge operation is never invoked. -/
theorem reversedMergeBranch_halts_on_conflict (w : RMWorld)
    (h1 : w.probe.isAncestor = false) (h2 : w.probe.mergeSucceeds = false)
    (h3 : hasConflictMarkers w.probe.mergeOutput = true) :
    (reversedMergeBranch w).1.isErr = true ∧
    ∀ b, RMOp.realMerge b ∉ (reversedMergeBranch w).2 := by
  match hcb : w.currentBranch with
  | .error m => simp [reversedMergeBranch, hcb, GoResult.isErr]
  | .ok cur =>
    match hargs : w.args with
    | tgt :: rest =>
      have hv := rmergeValidated_conflict w cur tgt [.getCurrentBranch] h1 h2 h3
      constructor
      · simpa [reversedMergeBranch, hcb, hargs] using hv.1
      · intro b hb
        have := hv.2 b (by simpa [reversedMergeBranch, hcb, hargs] using hb)
        simp at this
    | [] =>
      match hlb : w.localBranches with
      | .error m => simp [reversedMergeBranch, hcb, hargs, hlb, GoResult.isErr]
      | .ok locals =>
        by_cases hav : ∀ a ∈ locals, a = cur
        · simp [reversedMergeBranch, hcb, hargs, hlb, iff_true_intro hav, GoResult.isErr]
        · match hsel : w.selectTarget with
          | .error m => simp [reversedMergeBranch, hcb, hargs, hlb, hav, hsel, GoResult.isErr]
          | .ok selected =>
            have hv := rmergeValidated_conflict w cur selected
              [.getCurrentBranch, .getLocalBranches, .promptSelect] h1 h2 h3
            constructor
            · simpa [reversedMergeBranch, hcb, hargs, hlb, hav, hsel] using hv.1
            · intro b hb
              have := hv.2 b (by simpa [reversedMergeBranch, hcb, hargs, hlb, hav, hsel] using hb)
              simp at this

/-- Witness for C8 at a concrete run that reaches the probe with a
conflicting speculative merge. -/
theorem reversedMergeBranch_halts_on_conflict_witness :
    rmWorldConflict.probe.isAncestor = false ∧
    hasConflictMarkers rmWorldConflict.probe.mergeOutput = true ∧
    ((reversedMergeBranch rmWorldConflict).1.isErr = true ∧
      ∀ b, RMOp.realMerge b ∉ (reversedMergeBranch rmWorldConflict).2) :=
  ⟨rfl, by decide, reversedMergeBranch_halts_on_conflict rmWorldConflict rfl rfl (by decide)⟩

end CliAio
